import Mathlib

/-!
Verification of the HTS221 humidity/temperature driver.

The driver is embedded shallowly.  The asynchronous two-wire bus is modelled
as a pure response function: the stub receives the index of the transaction
and the transaction itself and answers with bytes or a transport error.
Every register operation threads an explicit `BusState` recording the ordered
trace of transactions, so sequencing claims become statements about traces.
`f32` values are modelled as rationals; a result that real `f32` arithmetic
would make non-finite (NaN or an infinity, from dividing by zero) is
represented by `none`.  All floating-point operations appearing in the
verified claims are exact at the inputs considered there.
-/

/-- A byte travelling on the bus, as a natural number (masked with `% 256`
where a register codec consumes it). -/
abbrev Byte := Nat

/-- One bus transaction issued by the driver: a combined write-then-read of
`len` bytes starting at register index `reg` (`write_read` in the transport
interface), or a plain write of a byte sequence. -/
inductive Tx : Type where
  | writeRead (reg : Byte) (len : Nat) : Tx
  | write (bytes : List Byte) : Tx
deriving DecidableEq, Repr

/-- Outcome of one bus transaction: the bytes read (empty for a plain write),
or a transport-defined error of type `E`. -/
inductive TxResult (E : Type) : Type where
  | ok (bytes : List Byte) : TxResult E
  | err (e : E) : TxResult E
deriving DecidableEq, Repr

/-- A bus transport stub: the response to the `k`-th transaction of a run,
possibly depending on the transaction requested. -/
abbrev Bus (E : Type) := Nat → Tx → TxResult E

/-- The observable bus state of one driver run: the number of transactions
issued so far and the ordered trace of transactions with their outcomes. -/
structure BusState (E : Type) : Type where
  k : Nat
  trace : List (Tx × TxResult E)
deriving DecidableEq, Repr

variable {E : Type}

/-- Issue one transaction on the bus: query the stub at the current index and
append the transaction and its outcome to the trace. -/
def runTx (bus : Bus E) (s : BusState E) (t : Tx) : TxResult E × BusState E :=
  (bus s.k t, ⟨s.k + 1, s.trace ++ [(t, bus s.k t)]⟩)

/-- First byte of a bus response, defaulting to the zero-initialised buffer
byte when the stub returns nothing, masked to a byte. -/
def byte0 (bs : List Byte) : Byte := bs.headD 0 % 256

/-- Byte at position `i` of a bus response (zero-initialised buffer default),
masked to a byte. -/
def byteAt (bs : List Byte) (i : Nat) : Byte := bs.getD i 0 % 256

/-- Reassemble a signed 16-bit little-endian value from two bytes
(`i16::from_le_bytes`). -/
def i16FromLe (lo hi : Byte) : Int :=
  let u : Nat := lo % 256 + 256 * (hi % 256)
  if u < 32768 then (u : Int) else (u : Int) - 65536

/-- Fixed 7-bit device address of the chip (`const ADDR: u8 = 0x5F`). -/
def ADDR : Byte := 0x5F

/-- Register index of the identity register. -/
def WHO_AM_I : Byte := 0x0F

/-- Register index of control register 1. -/
def CTRL_REG1 : Byte := 0x20

/-- Register index of control register 2 (`const CTRL_REG2: u8 = 0x21`). -/
def CTRL_REG2 : Byte := 0x21

/-- Register index of control register 3. -/
def CTRL_REG3 : Byte := 0x22

/-- Register index of the status register (`const STATUS: u8 = 0x27`). -/
def STATUS : Byte := 0x27

/-- Register index of the 2-byte auto-incrementing humidity output register
(`const H_OUT: u8 = 0xA8`). -/
def H_OUT : Byte := 0xA8

/-- Modelled from the spec: `t_out.rs` is absent from `src/`.  Register index
of the 2-byte auto-incrementing temperature output register. -/
def T_OUT : Byte := 0xAA

/-- Modelled from the spec: `calibration.rs` is absent from `src/`.  Register
index of the auto-incrementing calibration register block. -/
def CALIB : Byte := 0xB0

/-- Decoded view of control register 2 (`struct Ctrl2` in `ctrl2.rs`):
bit 7 boot, bit 1 heater, bit 0 enable-one-shot. -/
structure Ctrl2 : Type where
  boot : Bool
  heater : Bool
  enable_one_shot : Bool
deriving DecidableEq, Repr

/-- Decode a byte into `Ctrl2` (`impl Into<Ctrl2> for u8`). -/
def Ctrl2.decode (b : Byte) : Ctrl2 :=
  { boot := b.land 0b10000000 != 0
    heater := b.land 0b00000010 != 0
    enable_one_shot := b.land 0b00000001 != 0 }

/-- Encode a `Ctrl2` into a byte (`impl Into<u8> for Ctrl2`): the flag masks
are or-ed together, reserved bits stay zero. -/
def Ctrl2.encode (r : Ctrl2) : Byte :=
  Nat.lor (if r.boot then 0b10000000 else 0)
    (Nat.lor (if r.heater then 0b00000010 else 0)
      (if r.enable_one_shot then 0b00000001 else 0))

/-- Set the boot flag (`Ctrl2::boot`, which assigns `self.boot = true`). -/
def Ctrl2.bootOn (r : Ctrl2) : Ctrl2 := { r with boot := true }

/-- Mask of the reserved bit positions of control register 2: every bit other
than bit 7, bit 1 and bit 0. -/
def ctrl2ReservedMask : Byte := 0b01111100

/-- The byte written back by `Ctrl2::modify` when the byte read was `b` and
the caller-supplied mutation is `f`: the read byte is decoded, mutated and
re-encoded. -/
def Ctrl2.modifyByte (f : Ctrl2 → Ctrl2) (b : Byte) : Byte :=
  Ctrl2.encode (f (Ctrl2.decode b))

/-- Decoded view of the status register (`struct Status` in `status.rs`):
bit 0 temperature available, bit 1 humidity available. -/
structure Status : Type where
  temperature_available : Bool
  humidity_available : Bool
deriving DecidableEq, Repr

/-- Decode a byte into `Status` (`impl Into<Status> for u8`). -/
def Status.decode (b : Byte) : Status :=
  { temperature_available := b.land 0b01 != 0
    humidity_available := b.land 0b10 != 0 }

/-- Whether any sample is available (`Status::any_available`). -/
def Status.any_available (s : Status) : Bool :=
  s.temperature_available || s.humidity_available

/-- Modelled from the spec: `ctrl1.rs` is absent from `src/`.  Output data
rate codes of control register 1 (§6: `{0=one-shot, 1=1Hz, 2=7Hz, 3=12.5Hz}`). -/
inductive OutputDataRate : Type where
  | OneShot : OutputDataRate
  | Hz1 : OutputDataRate
  | Hz7 : OutputDataRate
  | Hz12p5 : OutputDataRate
deriving DecidableEq, Repr

/-- Numeric code of an output data rate. -/
def OutputDataRate.code : OutputDataRate → Byte
  | .OneShot => 0
  | .Hz1 => 1
  | .Hz7 => 2
  | .Hz12p5 => 3

/-- Output data rate from its numeric code; codes above 3 cannot be produced
by the 2-bit encodings in scope and are mapped to one-shot. -/
def OutputDataRate.ofCode (c : Byte) : OutputDataRate :=
  if c = 1 then .Hz1 else if c = 2 then .Hz7 else if c = 3 then .Hz12p5 else .OneShot

/-- Modelled from the spec: `ctrl1.rs` is absent from `src/`.  Block-data
update mode of control register 1. -/
inductive BlockDataUpdate : Type where
  | Continuous : BlockDataUpdate
  | MsbLsbReading : BlockDataUpdate
deriving DecidableEq, Repr

/-- Modelled from the spec: `ctrl1.rs` is absent from `src/`.  Decoded view of
control register 1 (§6: bit 7 power-active, bits 6-4 output-data-rate code,
bit 2 block-data-update). -/
structure Ctrl1 : Type where
  power_active : Bool
  output_data_rate : OutputDataRate
  block_data_update : BlockDataUpdate
deriving DecidableEq, Repr

/-- Modelled from the spec: decode a byte into `Ctrl1` by the §6 bit layout. -/
def Ctrl1.decode (b : Byte) : Ctrl1 :=
  { power_active := b.land 0b10000000 != 0
    output_data_rate := OutputDataRate.ofCode ((b >>> 4).land 0b111)
    block_data_update := if b.land 0b100 != 0 then .MsbLsbReading else .Continuous }

/-- Modelled from the spec: encode a `Ctrl1` into a byte by the §6 bit layout;
reserved bits stay zero. -/
def Ctrl1.encode (r : Ctrl1) : Byte :=
  Nat.lor (if r.power_active then 0b10000000 else 0)
    (Nat.lor (r.output_data_rate.code <<< 4)
      (if r.block_data_update = .MsbLsbReading then 0b100 else 0))

/-- Modelled from the spec: `ctrl3.rs` is absent from `src/`.  Decoded view of
control register 3 (§6: data-ready interrupt enable and polarity bits; the
spec gives no bit positions, so enable is mapped to bit 2 and polarity to
bit 7 — no verified claim depends on this layout). -/
structure Ctrl3 : Type where
  drdy_enable : Bool
  drdy_active_low : Bool
deriving DecidableEq, Repr

/-- Modelled from the spec: decode a byte into `Ctrl3`. -/
def Ctrl3.decode (b : Byte) : Ctrl3 :=
  { drdy_enable := b.land 0b100 != 0
    drdy_active_low := b.land 0b10000000 != 0 }

/-- Modelled from the spec: encode a `Ctrl3` into a byte; other bits zero. -/
def Ctrl3.encode (r : Ctrl3) : Byte :=
  Nat.lor (if r.drdy_enable then 0b100 else 0)
    (if r.drdy_active_low then 0b10000000 else 0)

/-- Set the data-ready enable flag (`Ctrl3::enable`, used by `initialize`). -/
def Ctrl3.enable (r : Ctrl3) (flag : Bool) : Ctrl3 := { r with drdy_enable := flag }

/-- A single-byte register codec: its register index together with the
decode/encode pair (§4.1 contract, one instance per control register). -/
structure RegCodec (V : Type) : Type where
  index : Byte
  decode : Byte → V
  encode : V → Byte

/-- Codec of control register 1. -/
def ctrl1Codec : RegCodec Ctrl1 := ⟨CTRL_REG1, Ctrl1.decode, Ctrl1.encode⟩

/-- Codec of control register 2. -/
def ctrl2Codec : RegCodec Ctrl2 := ⟨CTRL_REG2, Ctrl2.decode, Ctrl2.encode⟩

/-- Codec of control register 3. -/
def ctrl3Codec : RegCodec Ctrl3 := ⟨CTRL_REG3, Ctrl3.decode, Ctrl3.encode⟩

/-- Shared shape of every register read of the driver: one `write_read`
transaction of `len` bytes at register index `reg`, the response bytes mapped
through the register codec `g`, the transport error propagated unmodified. -/
def readVal {A : Type} (g : List Byte → A) (bus : Bus E) (s : BusState E)
    (reg : Byte) (len : Nat) : Except E A × BusState E :=
  match runTx bus s (Tx.writeRead reg len) with
  | (TxResult.ok bs, s1) => (Except.ok (g bs), s1)
  | (TxResult.err e, s1) => (Except.error e, s1)

/-- Read a one-byte register: one `write_read` transaction of the register
index, then decode the byte (the `read` half of the §4.1 contract, as in
`Ctrl2::read`). -/
def regRead {V : Type} (c : RegCodec V) (bus : Bus E) (s : BusState E) :
    Except E V × BusState E :=
  readVal (fun bs => c.decode (byte0 bs)) bus s c.index 1

/-- Write a one-byte register: one plain write of `[index, payload]`
(the `write` half of the §4.1 contract, as in `Ctrl2::write`). -/
def regWrite {V : Type} (c : RegCodec V) (bus : Bus E) (s : BusState E) (v : V) :
    Except E Unit × BusState E :=
  match runTx bus s (Tx.write [c.index, c.encode v]) with
  | (TxResult.ok _, s1) => (Except.ok (), s1)
  | (TxResult.err e, s1) => (Except.error e, s1)

/-- Read-modify-write of a one-byte register (`Ctrl2::modify` and its
clones): read and decode, apply the caller-supplied mutation, write back. -/
def regModify {V : Type} (c : RegCodec V) (bus : Bus E) (s : BusState E)
    (f : V → V) : Except E Unit × BusState E :=
  match regRead c bus s with
  | (Except.ok v, s1) => regWrite c bus s1 (f v)
  | (Except.error e, s1) => (Except.error e, s1)

/-- Modelled from the spec: `who_am_i.rs` is absent from `src/`.  Read the
identity register and return its byte; `lib.rs` compares this value against
the fixed constant stored in `self.address` (0x5F). -/
def WhoAmI.readOp (bus : Bus E) (s : BusState E) : Except E Byte × BusState E :=
  readVal byte0 bus s WHO_AM_I 1

/-- Read the status register (`Status::read`). -/
def Status.readOp (bus : Bus E) (s : BusState E) : Except E Status × BusState E :=
  readVal (fun bs => Status.decode (byte0 bs)) bus s STATUS 1

/-- Read the 2-byte humidity output register, little-endian (`Hout::read`). -/
def Hout.readOp (bus : Bus E) (s : BusState E) : Except E Int × BusState E :=
  readVal (fun bs => i16FromLe (byteAt bs 0) (byteAt bs 1)) bus s H_OUT 2

/-- Modelled from the spec: `t_out.rs` is absent from `src/`.  Read the 2-byte
temperature output register, little-endian, like `Hout::read`. -/
def Tout.readOp (bus : Bus E) (s : BusState E) : Except E Int × BusState E :=
  readVal (fun bs => i16FromLe (byteAt bs 0) (byteAt bs 1)) bus s T_OUT 2

/-- Scale marker for Kelvin (`struct Kelvin`). -/
structure Kelvin : Type where

/-- Scale marker for Celsius (`struct Celsius`). -/
structure Celsius : Type where

/-- Scale marker for Fahrenheit (`struct Fahrenheit`). -/
structure Fahrenheit : Type where

/-- Trait of temperature scales (`trait TemperatureScale`), carrying the
display letter. -/
class TemperatureScale (S : Type) : Type where
  LETTER : Char

instance : TemperatureScale Kelvin := ⟨'K'⟩

instance : TemperatureScale Celsius := ⟨'C'⟩

instance : TemperatureScale Fahrenheit := ⟨'F'⟩

/-- A temperature value tagged with its scale (`struct Temperature<S>`).  The
`f32` payload is modelled as a rational. -/
structure Temperature (S : Type) [TemperatureScale S] : Type where
  value : ℚ
deriving DecidableEq, Repr

/-- Read the raw value (`Temperature::raw_value`). -/
def Temperature.raw_value {S : Type} [TemperatureScale S] (t : Temperature S) : ℚ :=
  t.value

/-- Convert Celsius into Fahrenheit (`Temperature::<Celsius>::into_fahrenheit`):
`(self.value * 9.0 / 5.0) + 32.0`. -/
def Temperature.into_fahrenheit (t : Temperature Celsius) : Temperature Fahrenheit :=
  ⟨t.value * 9 / 5 + 32⟩

/-- Construct a Celsius temperature from a raw float
(`impl Into<Temperature<Celsius>> for f32`). -/
def Temperature.ofFloat (v : ℚ) : Temperature Celsius := ⟨v⟩

/-- Modelled from the spec: `calibration.rs` is absent from `src/`.  The
factory calibration data (§3): two (raw code, calibrated value) reference
points for temperature (calibrated Celsius scaled ×8) and two for humidity
(calibrated %RH scaled ×2), all signed 16-bit raw readings. -/
structure Calibration : Type where
  t0_out : Int
  t0_degc_x8 : Int
  t1_out : Int
  t1_degc_x8 : Int
  h0_out : Int
  h0_rh_x2 : Int
  h1_out : Int
  h1_rh_x2 : Int
deriving DecidableEq, Repr

/-- Modelled from the spec: parse the calibration register block.  The exact
byte layout of the block is not given by the spec; it is abstracted as eight
consecutive little-endian signed 16-bit values, two (x, y) pairs per physical
quantity.  No verified claim depends on this layout. -/
def Calibration.parse (bs : List Byte) : Calibration :=
  { t0_out := i16FromLe (byteAt bs 0) (byteAt bs 1)
    t0_degc_x8 := i16FromLe (byteAt bs 2) (byteAt bs 3)
    t1_out := i16FromLe (byteAt bs 4) (byteAt bs 5)
    t1_degc_x8 := i16FromLe (byteAt bs 6) (byteAt bs 7)
    h0_out := i16FromLe (byteAt bs 8) (byteAt bs 9)
    h0_rh_x2 := i16FromLe (byteAt bs 10) (byteAt bs 11)
    h1_out := i16FromLe (byteAt bs 12) (byteAt bs 13)
    h1_rh_x2 := i16FromLe (byteAt bs 14) (byteAt bs 15) }

/-- Modelled from the spec: read the calibration register block in one
write-then-read transaction and parse it (`Calibration::read`). -/
def Calibration.readOp (bus : Bus E) (s : BusState E) :
    Except E Calibration × BusState E :=
  readVal Calibration.parse bus s CALIB 16

/-- Modelled from the spec (§4.2): the two-point linear interpolation
`y0 + (raw - x0) * (y1 - y0) / (x1 - x0)`, computed in floating point.  The
float is modelled as a rational and `none` models the non-finite (NaN or
infinite) `f32` value that the division produces when `x1 = x0`. -/
def interpolate (x0 y0 x1 y1 raw : Int) : Option ℚ :=
  if x1 = x0 then none
  else some ((y0 : ℚ) + ((raw : ℚ) - (x0 : ℚ)) * ((y1 : ℚ) - (y0 : ℚ)) / ((x1 : ℚ) - (x0 : ℚ)))

/-- Modelled from the spec (§4.2): `calibrated_temperature` interpolates the
temperature calibration pair at the raw code and divides by 8.0 to yield a
Celsius-tagged value; `none` models a non-finite result. -/
def Calibration.calibrated_temperature (c : Calibration) (raw : Int) :
    Option (Temperature Celsius) :=
  (interpolate c.t0_out c.t0_degc_x8 c.t1_out c.t1_degc_x8 raw).map
    (fun q => ⟨q / 8⟩)

/-- Modelled from the spec (§4.2): `calibrated_humidity` interpolates the
humidity calibration pair at the raw code and divides by 2.0 to yield %RH;
`none` models a non-finite result. -/
def Calibration.calibrated_humidity (c : Calibration) (raw : Int) : Option ℚ :=
  (interpolate c.h0_out c.h0_rh_x2 c.h1_out c.h1_rh_x2 raw).map (fun q => q / 2)

/-- One acquisition returned by `read` (`struct SensorAcquisition<S>`): a
scale-tagged temperature and an untagged relative humidity; `none` components
model non-finite `f32` values. -/
structure SensorAcquisition (S : Type) [TemperatureScale S] : Type where
  temperature : Option (Temperature S)
  relative_humidity : Option ℚ
deriving DecidableEq, Repr

/-- Error returned by the driver (`enum Hts221Error<E>`): a wrapped transport
error, a read before calibration, or an unexpected device identity. -/
inductive Hts221Error (E : Type) : Type where
  | I2c (e : E) : Hts221Error E
  | NotCalibrated : Hts221Error E
  | InvalidSensor : Hts221Error E
deriving DecidableEq, Repr

/-- The two drain reads of one loop iteration: read and discard one humidity
sample, then one temperature sample, propagating transport errors
(`Hout::read(..).await?; Tout::read(..).await?`). -/
def Hts221.drainReads (bus : Bus E) (s : BusState E) :
    Except (Hts221Error E) Unit × BusState E :=
  match Hout.readOp bus s with
  | (Except.error e, s1) => (Except.error (Hts221Error.I2c e), s1)
  | (Except.ok _, s1) =>
    match Tout.readOp bus s1 with
    | (Except.error e, s2) => (Except.error (Hts221Error.I2c e), s2)
    | (Except.ok _, s2) => (Except.ok (), s2)

/-- The drain loop of `initialize` (`loop { if let Ok(status) = Status::read
{ if !status.any_available() { break; } } Hout::read?; Tout::read?; }`).
Each iteration reads the status register; on a successful read with no flag
set the loop exits; otherwise — including when the status read itself fails,
whose error the source discards via `if let Ok` — the two drain reads run and
the loop repeats.  The source loop is unbounded (spec §5); `fuel` bounds only
this model, and `none` marks a run that would iterate beyond the fuel. -/
def Hts221.drainLoop (bus : Bus E) :
    Nat → BusState E → Option (Except (Hts221Error E) Unit × BusState E)
  | 0, _ => none
  | fuel + 1, s =>
    match Status.readOp bus s with
    | (Except.ok st, s1) =>
      if st.any_available then
        match Hts221.drainReads bus s1 with
        | (Except.error err, s2) => some (Except.error err, s2)
        | (Except.ok _, s2) => Hts221.drainLoop bus fuel s2
      else some (Except.ok (), s1)
    | (Except.error _, s1) =>
      match Hts221.drainReads bus s1 with
      | (Except.error err, s2) => some (Except.error err, s2)
      | (Except.ok _, s2) => Hts221.drainLoop bus fuel s2

/-- The body of `Hts221::initialize` up to and including the calibration
read, starting from an empty trace: identity check, boot, configuration,
data-ready enable, drain loop, calibration read.  Transport errors are
wrapped as `I2c` by the `From` impl at each `?`.  Returns the calibration
data on success; the single mutation of the session in the source —
`self.calibration.replace(..)` on the last line — is applied by
`Hts221.initialize` on top of this. -/
def Hts221.initSteps (bus : Bus E) (fuel : Nat) :
    Option (Except (Hts221Error E) Calibration × BusState E) :=
  match WhoAmI.readOp bus ⟨0, []⟩ with
  | (Except.error e, s) => some (Except.error (Hts221Error.I2c e), s)
  | (Except.ok idByte, s) =>
    if idByte ≠ ADDR then some (Except.error Hts221Error.InvalidSensor, s)
    else
      match regModify ctrl2Codec bus s Ctrl2.bootOn with
      | (Except.error e, s) => some (Except.error (Hts221Error.I2c e), s)
      | (Except.ok _, s) =>
        match regModify ctrl1Codec bus s (fun r =>
            { r with
              power_active := true
              output_data_rate := OutputDataRate.Hz1
              block_data_update := BlockDataUpdate.MsbLsbReading }) with
        | (Except.error e, s) => some (Except.error (Hts221Error.I2c e), s)
        | (Except.ok _, s) =>
          match regModify ctrl3Codec bus s (fun r => Ctrl3.enable r true) with
          | (Except.error e, s) => some (Except.error (Hts221Error.I2c e), s)
          | (Except.ok _, s) =>
            match Hts221.drainLoop bus fuel s with
            | none => none
            | some (Except.error err, s) => some (Except.error err, s)
            | some (Except.ok _, s) =>
              match Calibration.readOp bus s with
              | (Except.error e, s) => some (Except.error (Hts221Error.I2c e), s)
              | (Except.ok cal, s) => some (Except.ok cal, s)

/-- `Hts221::initialize`, given the stored calibration field of the session:
runs the initialization sequence and, only on success, replaces the stored
calibration with the newly read one (`self.calibration.replace(..)` is the
sole mutation of the field in the source).  Returns the result, the stored
calibration after the call, and the final bus state; `none` marks a run whose
drain loop exceeds the fuel of the model. -/
def Hts221.initialize (bus : Bus E) (cal : Option Calibration) (fuel : Nat) :
    Option (Except (Hts221Error E) Unit × Option Calibration × BusState E) :=
  match Hts221.initSteps bus fuel with
  | none => none
  | some (Except.error err, s) => some (Except.error err, cal, s)
  | some (Except.ok c, s) => some (Except.ok (), some c, s)

/-- `Hts221::read`, given the stored calibration field of the session: with
no calibration present it fails with `NotCalibrated` before any bus
transaction; otherwise it reads the raw temperature code, calibrates it,
reads the raw humidity code, calibrates it, and assembles the acquisition.
The stored calibration is returned unchanged — the source never assigns
`self.calibration` in `read`. -/
def Hts221.read (bus : Bus E) (cal : Option Calibration) :
    Except (Hts221Error E) (SensorAcquisition Celsius) × Option Calibration × BusState E :=
  match cal with
  | none => (Except.error Hts221Error.NotCalibrated, none, ⟨0, []⟩)
  | some c =>
    match Tout.readOp bus ⟨0, []⟩ with
    | (Except.error e, s) => (Except.error (Hts221Error.I2c e), some c, s)
    | (Except.ok t_out, s) =>
      match Hout.readOp bus s with
      | (Except.error e, s1) => (Except.error (Hts221Error.I2c e), some c, s1)
      | (Except.ok h_out, s1) =>
        (Except.ok
          { temperature := c.calibrated_temperature t_out
            relative_humidity := c.calibrated_humidity h_out },
          some c, s1)

/-- All-zero calibration data: what `Calibration.parse` yields from a
zero-filled calibration block. -/
def zeroCal : Calibration := Calibration.parse (List.replicate 16 0)

/-- A transport stub answering every transaction with the single byte 0:
the identity read then yields 0, which differs from the expected value. -/
def badBus : Bus Unit := fun _ _ => TxResult.ok [0]

/-- A transport stub failing every transaction with error 5. -/
def errBus : Bus Nat := fun _ _ => TxResult.err 5

/-- The §8 draining stub, parametrised by `N`: the identity read answers the
expected value, every status read up to the `N`-th stale pair reports both
flags set, the status read after `N` pairs reports none, and every other
transaction succeeds with a zero-filled buffer.  Status reads of a run of
`initialize` happen at transaction indices `7 + 3*i`, so the `i`-th status
read reports flags set exactly when `i < N`. -/
def drainStub (N : Nat) : Bus Unit := fun k t =>
  match t with
  | Tx.write _ => TxResult.ok []
  | Tx.writeRead r len =>
    if r = WHO_AM_I then TxResult.ok [ADDR]
    else if r = STATUS then
      (if k < 7 + 3 * N then TxResult.ok [3] else TxResult.ok [0])
    else TxResult.ok (List.replicate len 0)

/-- A transport stub whose seventh transaction — the first status read of the
drain loop — fails with transport error 7 while every other transaction
succeeds: the identity read answers the expected value, later status reads
report no samples available, and all other reads yield zero-filled buffers. -/
def cexBus : Bus Nat := fun k t =>
  if k = 7 then TxResult.err 7
  else
    match t with
    | Tx.write _ => TxResult.ok []
    | Tx.writeRead r len =>
      if r = WHO_AM_I then TxResult.ok [ADDR]
      else if r = STATUS then TxResult.ok [0]
      else TxResult.ok (List.replicate len 0)

/-- A calibration record whose temperature pair and humidity pair both have
equal raw-code x-coordinates: the degenerate case of §7. -/
def degCal : Calibration :=
  { t0_out := 5, t0_degc_x8 := 10, t1_out := 5, t1_degc_x8 := 20
    h0_out := 7, h0_rh_x2 := 30, h1_out := 7, h1_rh_x2 := 40 }

/-- Number of occurrences of the transaction `tx` in a trace. -/
def countTx (tx : Tx) (l : List (Tx × TxResult E)) : Nat :=
  l.countP (fun p => p.1 == tx)

/-- The trace of the seven transactions a run of `initialize` against
`drainStub N` performs before its drain loop: identity read, then the three
read-modify-write pairs on the control registers. -/
def preDrainTrace : List (Tx × TxResult Unit) :=
  [(Tx.writeRead WHO_AM_I 1, TxResult.ok [ADDR]),
   (Tx.writeRead CTRL_REG2 1, TxResult.ok [0]),
   (Tx.write [CTRL_REG2, 128], TxResult.ok []),
   (Tx.writeRead CTRL_REG1 1, TxResult.ok [0]),
   (Tx.write [CTRL_REG1, 148], TxResult.ok []),
   (Tx.writeRead CTRL_REG3 1, TxResult.ok [0]),
   (Tx.write [CTRL_REG3, 4], TxResult.ok [])]

/-- The final bus state of the run of `initialize` against `cexBus`: twelve
transactions, among them the failed first status read of the drain loop. -/
def cexFinal : BusState Nat :=
  ⟨12,
    [(Tx.writeRead WHO_AM_I 1, TxResult.ok [95]),
     (Tx.writeRead CTRL_REG2 1, TxResult.ok [0]),
     (Tx.write [CTRL_REG2, 128], TxResult.ok []),
     (Tx.writeRead CTRL_REG1 1, TxResult.ok [0]),
     (Tx.write [CTRL_REG1, 148], TxResult.ok []),
     (Tx.writeRead CTRL_REG3 1, TxResult.ok [0]),
     (Tx.write [CTRL_REG3, 4], TxResult.ok []),
     (Tx.writeRead STATUS 1, TxResult.err 7),
     (Tx.writeRead H_OUT 2, TxResult.ok [0, 0]),
     (Tx.writeRead T_OUT 2, TxResult.ok [0, 0]),
     (Tx.writeRead STATUS 1, TxResult.ok [0]),
     (Tx.writeRead CALIB 16, TxResult.ok (List.replicate 16 0))]⟩

theorem readVal_ok {A : Type} (g : List Byte → A) (bus : Bus E) (s : BusState E)
    (reg : Byte) (len : Nat) (bs : List Byte)
    (h : bus s.k (Tx.writeRead reg len) = TxResult.ok bs) :
    readVal g bus s reg len =
      (Except.ok (g bs),
        ⟨s.k + 1, s.trace ++ [(Tx.writeRead reg len, TxResult.ok bs)]⟩) := by
  simp [readVal, runTx, h]

theorem readVal_err {A : Type} (g : List Byte → A) (bus : Bus E) (s : BusState E)
    (reg : Byte) (len : Nat) (e : E)
    (h : bus s.k (Tx.writeRead reg len) = TxResult.err e) :
    readVal g bus s reg len =
      (Except.error e,
        ⟨s.k + 1, s.trace ++ [(Tx.writeRead reg len, TxResult.err e)]⟩) := by
  simp [readVal, runTx, h]

theorem regWrite_ok {V : Type} (c : RegCodec V) (bus : Bus E) (s : BusState E)
    (v : V) (bs : List Byte)
    (h : bus s.k (Tx.write [c.index, c.encode v]) = TxResult.ok bs) :
    regWrite c bus s v =
      (Except.ok (),
        ⟨s.k + 1, s.trace ++ [(Tx.write [c.index, c.encode v], TxResult.ok bs)]⟩) := by
  simp [regWrite, runTx, h]

theorem regWrite_err {V : Type} (c : RegCodec V) (bus : Bus E) (s : BusState E)
    (v : V) (e : E)
    (h : bus s.k (Tx.write [c.index, c.encode v]) = TxResult.err e) :
    regWrite c bus s v =
      (Except.error e,
        ⟨s.k + 1, s.trace ++ [(Tx.write [c.index, c.encode v], TxResult.err e)]⟩) := by
  simp [regWrite, runTx, h]

theorem regModify_cases {V : Type} (c : RegCodec V) (bus : Bus E) (s : BusState E)
    (f : V → V) :
    (∃ e, bus s.k (Tx.writeRead c.index 1) = TxResult.err e ∧
      regModify c bus s f =
        (Except.error e,
          ⟨s.k + 1, s.trace ++ [(Tx.writeRead c.index 1, TxResult.err e)]⟩)) ∨
    (∃ bs e, bus s.k (Tx.writeRead c.index 1) = TxResult.ok bs ∧
      bus (s.k + 1) (Tx.write [c.index, c.encode (f (c.decode (byte0 bs)))]) =
        TxResult.err e ∧
      regModify c bus s f =
        (Except.error e,
          ⟨s.k + 2, s.trace ++
            [(Tx.writeRead c.index 1, TxResult.ok bs),
             (Tx.write [c.index, c.encode (f (c.decode (byte0 bs)))],
               TxResult.err e)]⟩)) ∨
    (∃ bs bs2, bus s.k (Tx.writeRead c.index 1) = TxResult.ok bs ∧
      bus (s.k + 1) (Tx.write [c.index, c.encode (f (c.decode (byte0 bs)))]) =
        TxResult.ok bs2 ∧
      regModify c bus s f =
        (Except.ok (),
          ⟨s.k + 2, s.trace ++
            [(Tx.writeRead c.index 1, TxResult.ok bs),
             (Tx.write [c.index, c.encode (f (c.decode (byte0 bs)))],
               TxResult.ok bs2)]⟩)) := by
  cases hr : bus s.k (Tx.writeRead c.index 1) with
  | err e =>
    exact Or.inl ⟨e, rfl, by simp [regModify, regRead, readVal, runTx, hr]⟩
  | ok bs =>
    cases hw : bus (s.k + 1) (Tx.write [c.index, c.encode (f (c.decode (byte0 bs)))]) with
    | err e =>
      refine Or.inr (Or.inl ⟨bs, e, rfl, hw, ?_⟩)
      simp [regModify, regRead, regWrite, readVal, runTx, hr, hw]
    | ok bs2 =>
      refine Or.inr (Or.inr ⟨bs, bs2, rfl, hw, ?_⟩)
      simp [regModify, regRead, regWrite, readVal, runTx, hr, hw]

theorem drainReads_cases (bus : Bus E) (s : BusState E) :
    (∃ e, bus s.k (Tx.writeRead H_OUT 2) = TxResult.err e ∧
      Hts221.drainReads bus s =
        (Except.error (Hts221Error.I2c e),
          ⟨s.k + 1, s.trace ++ [(Tx.writeRead H_OUT 2, TxResult.err e)]⟩)) ∨
    (∃ bs e, bus s.k (Tx.writeRead H_OUT 2) = TxResult.ok bs ∧
      bus (s.k + 1) (Tx.writeRead T_OUT 2) = TxResult.err e ∧
      Hts221.drainReads bus s =
        (Except.error (Hts221Error.I2c e),
          ⟨s.k + 2, s.trace ++
            [(Tx.writeRead H_OUT 2, TxResult.ok bs),
             (Tx.writeRead T_OUT 2, TxResult.err e)]⟩)) ∨
    (∃ bs bs2, bus s.k (Tx.writeRead H_OUT 2) = TxResult.ok bs ∧
      bus (s.k + 1) (Tx.writeRead T_OUT 2) = TxResult.ok bs2 ∧
      Hts221.drainReads bus s =
        (Except.ok (),
          ⟨s.k + 2, s.trace ++
            [(Tx.writeRead H_OUT 2, TxResult.ok bs),
             (Tx.writeRead T_OUT 2, TxResult.ok bs2)]⟩)) := by
  cases hh : bus s.k (Tx.writeRead H_OUT 2) with
  | err e =>
    exact Or.inl ⟨e, rfl, by
      simp [Hts221.drainReads, Hout.readOp, Tout.readOp, readVal, runTx, hh]⟩
  | ok bs =>
    cases ht : bus (s.k + 1) (Tx.writeRead T_OUT 2) with
    | err e =>
      refine Or.inr (Or.inl ⟨bs, e, rfl, rfl, ?_⟩)
      simp [Hts221.drainReads, Hout.readOp, Tout.readOp, readVal, runTx, hh, ht]
    | ok bs2 =>
      refine Or.inr (Or.inr ⟨bs, bs2, rfl, rfl, ?_⟩)
      simp [Hts221.drainReads, Hout.readOp, Tout.readOp, readVal, runTx, hh, ht]

theorem drainLoop_extends (bus : Bus E) :
    ∀ fuel s r s', Hts221.drainLoop bus fuel s = some (r, s') →
      ∃ t, s'.trace = s.trace ++ t := by
  intro fuel
  induction fuel with
  | zero => intro s r s' h; simp [Hts221.drainLoop] at h
  | succ n ih =>
    intro s r s' h
    cases hs : bus s.k (Tx.writeRead STATUS 1) with
    | ok bs =>
      simp only [Hts221.drainLoop, Status.readOp, readVal, runTx, hs] at h
      by_cases hA : (Status.decode (byte0 bs)).any_available = true
      · simp only [hA, if_true] at h
        rcases drainReads_cases bus
            ⟨s.k + 1, s.trace ++ [(Tx.writeRead STATUS 1, TxResult.ok bs)]⟩ with
          ⟨e, hb, hd⟩ | ⟨bs1, e, hb, hb2, hd⟩ | ⟨bs1, bs2, hb, hb2, hd⟩ <;>
          simp only [hd] at h
        · simp only [Option.some.injEq, Prod.mk.injEq] at h
          obtain ⟨h1, h2⟩ := h
          exact ⟨[(Tx.writeRead STATUS 1, TxResult.ok bs),
            (Tx.writeRead H_OUT 2, TxResult.err e)], by rw [← h2]; try simp⟩
        · simp only [Option.some.injEq, Prod.mk.injEq] at h
          obtain ⟨h1, h2⟩ := h
          exact ⟨[(Tx.writeRead STATUS 1, TxResult.ok bs),
            (Tx.writeRead H_OUT 2, TxResult.ok bs1),
            (Tx.writeRead T_OUT 2, TxResult.err e)], by rw [← h2]; try simp⟩
        · obtain ⟨t, ht⟩ := ih _ _ _ h
          exact ⟨[(Tx.writeRead STATUS 1, TxResult.ok bs),
            (Tx.writeRead H_OUT 2, TxResult.ok bs1),
            (Tx.writeRead T_OUT 2, TxResult.ok bs2)] ++ t, by rw [ht]; simp⟩
      · simp only [hA, if_false, Bool.false_eq_true] at h
        simp only [Option.some.injEq, Prod.mk.injEq] at h
        obtain ⟨h1, h2⟩ := h
        exact ⟨[(Tx.writeRead STATUS 1, TxResult.ok bs)], by rw [← h2]; try simp⟩
    | err e0 =>
      simp only [Hts221.drainLoop, Status.readOp, readVal, runTx, hs] at h
      rcases drainReads_cases bus
          ⟨s.k + 1, s.trace ++ [(Tx.writeRead STATUS 1, TxResult.err e0)]⟩ with
        ⟨e, hb, hd⟩ | ⟨bs1, e, hb, hb2, hd⟩ | ⟨bs1, bs2, hb, hb2, hd⟩ <;>
        simp only [hd] at h
      · simp only [Option.some.injEq, Prod.mk.injEq] at h
        obtain ⟨h1, h2⟩ := h
        exact ⟨[(Tx.writeRead STATUS 1, TxResult.err e0),
          (Tx.writeRead H_OUT 2, TxResult.err e)], by rw [← h2]; try simp⟩
      · simp only [Option.some.injEq, Prod.mk.injEq] at h
        obtain ⟨h1, h2⟩ := h
        exact ⟨[(Tx.writeRead STATUS 1, TxResult.err e0),
          (Tx.writeRead H_OUT 2, TxResult.ok bs1),
          (Tx.writeRead T_OUT 2, TxResult.err e)], by rw [← h2]; try simp⟩
      · obtain ⟨t, ht⟩ := ih _ _ _ h
        exact ⟨[(Tx.writeRead STATUS 1, TxResult.err e0),
          (Tx.writeRead H_OUT 2, TxResult.ok bs1),
          (Tx.writeRead T_OUT 2, TxResult.ok bs2)] ++ t, by rw [ht]; simp⟩

theorem drainLoop_err (bus : Bus E) :
    ∀ fuel s err2 s', Hts221.drainLoop bus fuel s = some (Except.error err2, s') →
      ∃ e, err2 = Hts221Error.I2c e ∧
        (s'.trace.getLast?).map Prod.snd = some (TxResult.err e) := by
  intro fuel
  induction fuel with
  | zero => intro s err2 s' h; simp [Hts221.drainLoop] at h
  | succ n ih =>
    intro s err2 s' h
    cases hs : bus s.k (Tx.writeRead STATUS 1) with
    | ok bs =>
      simp only [Hts221.drainLoop, Status.readOp, readVal, runTx, hs] at h
      by_cases hA : (Status.decode (byte0 bs)).any_available = true
      · simp only [hA, if_true] at h
        rcases drainReads_cases bus
            ⟨s.k + 1, s.trace ++ [(Tx.writeRead STATUS 1, TxResult.ok bs)]⟩ with
          ⟨e, hb, hd⟩ | ⟨bs1, e, hb, hb2, hd⟩ | ⟨bs1, bs2, hb, hb2, hd⟩ <;>
          simp only [hd] at h
        · simp only [Option.some.injEq, Prod.mk.injEq, Except.error.injEq] at h
          obtain ⟨h1, h2⟩ := h
          exact ⟨e, h1.symm, by rw [← h2]; simp⟩
        · simp only [Option.some.injEq, Prod.mk.injEq, Except.error.injEq] at h
          obtain ⟨h1, h2⟩ := h
          exact ⟨e, h1.symm, by rw [← h2]; simp⟩
        · exact ih _ _ _ h
      · simp only [hA, if_false, Bool.false_eq_true] at h
        simp only [Option.some.injEq, Prod.mk.injEq] at h
        exact absurd h.1 (by simp)
    | err e0 =>
      simp only [Hts221.drainLoop, Status.readOp, readVal, runTx, hs] at h
      rcases drainReads_cases bus
          ⟨s.k + 1, s.trace ++ [(Tx.writeRead STATUS 1, TxResult.err e0)]⟩ with
        ⟨e, hb, hd⟩ | ⟨bs1, e, hb, hb2, hd⟩ | ⟨bs1, bs2, hb, hb2, hd⟩ <;>
        simp only [hd] at h
      · simp only [Option.some.injEq, Prod.mk.injEq, Except.error.injEq] at h
        obtain ⟨h1, h2⟩ := h
        exact ⟨e, h1.symm, by rw [← h2]; simp⟩
      · simp only [Option.some.injEq, Prod.mk.injEq, Except.error.injEq] at h
        obtain ⟨h1, h2⟩ := h
        exact ⟨e, h1.symm, by rw [← h2]; simp⟩
      · exact ih _ _ _ h

theorem drainLoop_status_err (bus : Bus E) (s : BusState E) (fuel : Nat) (e : E)
    (hs : bus s.k (Tx.writeRead STATUS 1) = TxResult.err e)
    (r : Except (Hts221Error E) Unit) (s' : BusState E)
    (h : Hts221.drainLoop bus (fuel + 1) s = some (r, s')) :
    ∃ t, s'.trace = s.trace ++
      (Tx.writeRead STATUS 1, TxResult.err e) ::
      (Tx.writeRead H_OUT 2, bus (s.k + 1) (Tx.writeRead H_OUT 2)) :: t := by
  simp only [Hts221.drainLoop, Status.readOp, readVal, runTx, hs] at h
  rcases drainReads_cases bus
      ⟨s.k + 1, s.trace ++ [(Tx.writeRead STATUS 1, TxResult.err e)]⟩ with
    ⟨e1, hb, hd⟩ | ⟨bs1, e1, hb, hb2, hd⟩ | ⟨bs1, bs2, hb, hb2, hd⟩ <;>
    simp only [hd] at h <;> simp only [BusState.mk.injEq] at hb
  · simp only [Option.some.injEq, Prod.mk.injEq] at h
    refine ⟨[], ?_⟩
    rw [← h.2, hb]
    simp
  · simp only [Option.some.injEq, Prod.mk.injEq] at h
    refine ⟨[(Tx.writeRead T_OUT 2, TxResult.err e1)], ?_⟩
    rw [← h.2, hb]
    simp
  · obtain ⟨t, ht⟩ := drainLoop_extends bus fuel _ _ _ h
    refine ⟨(Tx.writeRead T_OUT 2, TxResult.ok bs2) :: t, ?_⟩
    rw [ht, hb]
    simp

theorem countTx_append (tx : Tx) (l1 l2 : List (Tx × TxResult E)) :
    countTx tx (l1 ++ l2) = countTx tx l1 + countTx tx l2 := by
  simp [countTx, List.countP_append]

theorem drainStub_loop (N : Nat) :
    ∀ j s, j ≤ N → s.k = 7 + 3 * (N - j) →
      ∃ t, Hts221.drainLoop (drainStub N) (j + 1) s =
          some (Except.ok (), ⟨7 + 3 * N + 1, s.trace ++ t⟩) ∧
        countTx (Tx.writeRead H_OUT 2) t = j ∧
        countTx (Tx.writeRead T_OUT 2) t = j ∧
        t.length = 3 * j + 1 := by
  intro j
  induction j with
  | zero =>
    intro s hj hk
    have hs0 : drainStub N (7 + 3 * N) (Tx.writeRead STATUS 1) = TxResult.ok [0] := by
      simp [drainStub, STATUS, WHO_AM_I]
    have hav0 : (Status.decode (byte0 [0])).any_available = false := by decide
    refine ⟨[(Tx.writeRead STATUS 1, TxResult.ok [0])], ?_, by decide, by decide, by decide⟩
    rw [Hts221.drainLoop]
    simp [Status.readOp, readVal, runTx, hk, hs0, hav0]
  | succ j ih =>
    intro s hj hk
    have hlt : s.k < 7 + 3 * N := by omega
    have hs1 : drainStub N s.k (Tx.writeRead STATUS 1) = TxResult.ok [3] := by
      simp [drainStub, STATUS, WHO_AM_I, hlt]
    have hav1 : (Status.decode (byte0 [3])).any_available = true := by decide
    have hh : drainStub N (s.k + 1) (Tx.writeRead H_OUT 2) =
        TxResult.ok (List.replicate 2 0) := by
      simp [drainStub, H_OUT, STATUS, WHO_AM_I]
    have ht : drainStub N (s.k + 1 + 1) (Tx.writeRead T_OUT 2) =
        TxResult.ok (List.replicate 2 0) := by
      simp [drainStub, T_OUT, STATUS, WHO_AM_I]
    have hd : Hts221.drainReads (drainStub N)
        ⟨s.k + 1, s.trace ++ [(Tx.writeRead STATUS 1, TxResult.ok [3])]⟩ =
        (Except.ok (), ⟨s.k + 3, s.trace ++
          [(Tx.writeRead STATUS 1, TxResult.ok [3]),
           (Tx.writeRead H_OUT 2, TxResult.ok (List.replicate 2 0)),
           (Tx.writeRead T_OUT 2, TxResult.ok (List.replicate 2 0))]⟩) := by
      simp only [Hts221.drainReads, Hout.readOp, Tout.readOp, readVal, runTx]
      simp [hh, ht]
    have hstep : Hts221.drainLoop (drainStub N) (j + 1 + 1) s =
        Hts221.drainLoop (drainStub N) (j + 1)
          ⟨s.k + 3, s.trace ++
            [(Tx.writeRead STATUS 1, TxResult.ok [3]),
             (Tx.writeRead H_OUT 2, TxResult.ok (List.replicate 2 0)),
             (Tx.writeRead T_OUT 2, TxResult.ok (List.replicate 2 0))]⟩ := by
      rw [Hts221.drainLoop]
      simp only [Status.readOp, readVal, runTx, hs1]
      simp only [hav1, if_true, hd]
    obtain ⟨t', heq, hcH, hcT, hlen⟩ := ih
      ⟨s.k + 3, s.trace ++
        [(Tx.writeRead STATUS 1, TxResult.ok [3]),
         (Tx.writeRead H_OUT 2, TxResult.ok (List.replicate 2 0)),
         (Tx.writeRead T_OUT 2, TxResult.ok (List.replicate 2 0))]⟩
      (by omega) (by simp; omega)
    refine ⟨[(Tx.writeRead STATUS 1, TxResult.ok [3]),
         (Tx.writeRead H_OUT 2, TxResult.ok (List.replicate 2 0)),
         (Tx.writeRead T_OUT 2, TxResult.ok (List.replicate 2 0))] ++ t', ?_, ?_, ?_, ?_⟩
    · rw [hstep, heq]
      simp
    · rw [countTx_append, hcH]
      have : countTx (Tx.writeRead H_OUT 2)
          ([(Tx.writeRead STATUS 1, TxResult.ok [3]),
            (Tx.writeRead H_OUT 2, TxResult.ok (List.replicate 2 0)),
            (Tx.writeRead T_OUT 2, TxResult.ok (List.replicate 2 0))] :
            List (Tx × TxResult Unit)) = 1 := by decide
      omega
    · rw [countTx_append, hcT]
      have : countTx (Tx.writeRead T_OUT 2)
          ([(Tx.writeRead STATUS 1, TxResult.ok [3]),
            (Tx.writeRead H_OUT 2, TxResult.ok (List.replicate 2 0)),
            (Tx.writeRead T_OUT 2, TxResult.ok (List.replicate 2 0))] :
            List (Tx × TxResult Unit)) = 1 := by decide
      omega
    · simp [hlen]
      omega

theorem initSteps_run (bus : Bus E) (fuel : Nat) (r : Except (Hts221Error E) Calibration)
    (s' : BusState E) (h : Hts221.initSteps bus fuel = some (r, s')) :
    (s'.trace.head? =
      some (Tx.writeRead WHO_AM_I 1, bus 0 (Tx.writeRead WHO_AM_I 1))) ∧
    (∀ e, r = Except.error (Hts221Error.I2c e) →
      (s'.trace.getLast?).map Prod.snd = some (TxResult.err e)) := by
  cases hw : bus 0 (Tx.writeRead WHO_AM_I 1) with
  | err e0 =>
    simp only [Hts221.initSteps, WhoAmI.readOp, readVal, runTx, hw] at h
    simp only [Option.some.injEq, Prod.mk.injEq] at h
    obtain ⟨h1, h2⟩ := h
    subst h2
    refine ⟨by simp, ?_⟩
    intro e he
    rw [← h1] at he
    simp only [Except.error.injEq, Hts221Error.I2c.injEq] at he
    subst he
    simp
  | ok bs =>
    simp only [Hts221.initSteps, WhoAmI.readOp, readVal, runTx, hw] at h
    by_cases hid : byte0 bs = ADDR
    · rw [if_neg (by simp [hid])] at h
      rcases regModify_cases ctrl2Codec bus
          ⟨0 + 1, [] ++ [(Tx.writeRead WHO_AM_I 1, TxResult.ok bs)]⟩ Ctrl2.bootOn with
        ⟨e2, hb2, hm2⟩ | ⟨p2, e2, hb2, hb2w, hm2⟩ | ⟨p2, q2, hb2, hb2w, hm2⟩ <;>
        simp only [hm2] at h
      · simp only [Option.some.injEq, Prod.mk.injEq] at h
        obtain ⟨h1, h2⟩ := h
        subst h2
        refine ⟨by simp, ?_⟩
        intro e he
        rw [← h1] at he
        simp only [Except.error.injEq, Hts221Error.I2c.injEq] at he
        subst he
        simp
      · simp only [Option.some.injEq, Prod.mk.injEq] at h
        obtain ⟨h1, h2⟩ := h
        subst h2
        refine ⟨by simp, ?_⟩
        intro e he
        rw [← h1] at he
        simp only [Except.error.injEq, Hts221Error.I2c.injEq] at he
        subst he
        simp
      · rcases regModify_cases ctrl1Codec bus
            ⟨0 + 1 + 2, ([] ++ [(Tx.writeRead WHO_AM_I 1, TxResult.ok bs)]) ++
              [(Tx.writeRead ctrl2Codec.index 1, TxResult.ok p2),
               (Tx.write [ctrl2Codec.index,
                 ctrl2Codec.encode (Ctrl2.bootOn (ctrl2Codec.decode (byte0 p2)))],
                 TxResult.ok q2)]⟩
            (fun r0 =>
              { r0 with
                power_active := true
                output_data_rate := OutputDataRate.Hz1
                block_data_update := BlockDataUpdate.MsbLsbReading }) with
          ⟨e1, hb1, hm1⟩ | ⟨p1, e1, hb1, hb1w, hm1⟩ | ⟨p1, q1, hb1, hb1w, hm1⟩ <;>
          simp only [hm1] at h
        · simp only [Option.some.injEq, Prod.mk.injEq] at h
          obtain ⟨h1, h2⟩ := h
          subst h2
          refine ⟨by simp, ?_⟩
          intro e he
          rw [← h1] at he
          simp only [Except.error.injEq, Hts221Error.I2c.injEq] at he
          subst he
          simp
        · simp only [Option.some.injEq, Prod.mk.injEq] at h
          obtain ⟨h1, h2⟩ := h
          subst h2
          refine ⟨by simp, ?_⟩
          intro e he
          rw [← h1] at he
          simp only [Except.error.injEq, Hts221Error.I2c.injEq] at he
          subst he
          simp
        · rcases regModify_cases ctrl3Codec bus
              ⟨0 + 1 + 2 + 2, (([] ++ [(Tx.writeRead WHO_AM_I 1, TxResult.ok bs)]) ++
                [(Tx.writeRead ctrl2Codec.index 1, TxResult.ok p2),
                 (Tx.write [ctrl2Codec.index,
                   ctrl2Codec.encode (Ctrl2.bootOn (ctrl2Codec.decode (byte0 p2)))],
                   TxResult.ok q2)]) ++
                [(Tx.writeRead ctrl1Codec.index 1, TxResult.ok p1),
                 (Tx.write [ctrl1Codec.index,
                   ctrl1Codec.encode
                     ((fun r0 =>
                       { r0 with
                         power_active := true
                         output_data_rate := OutputDataRate.Hz1
                         block_data_update := BlockDataUpdate.MsbLsbReading })
                       (ctrl1Codec.decode (byte0 p1)))],
                   TxResult.ok q1)]⟩
              (fun r0 => Ctrl3.enable r0 true) with
            ⟨e3, hb3, hm3⟩ | ⟨p3, e3, hb3, hb3w, hm3⟩ | ⟨p3, q3, hb3, hb3w, hm3⟩ <;>
            simp only [hm3] at h
          · simp only [Option.some.injEq, Prod.mk.injEq] at h
            obtain ⟨h1, h2⟩ := h
            subst h2
            refine ⟨by simp, ?_⟩
            intro e he
            rw [← h1] at he
            simp only [Except.error.injEq, Hts221Error.I2c.injEq] at he
            subst he
            simp
          · simp only [Option.some.injEq, Prod.mk.injEq] at h
            obtain ⟨h1, h2⟩ := h
            subst h2
            refine ⟨by simp, ?_⟩
            intro e he
            rw [← h1] at he
            simp only [Except.error.injEq, Hts221Error.I2c.injEq] at he
            subst he
            simp
          · cases hdr : Hts221.drainLoop bus fuel
                ⟨0 + 1 + 2 + 2 + 2, ((([] ++ [(Tx.writeRead WHO_AM_I 1, TxResult.ok bs)]) ++
                  [(Tx.writeRead ctrl2Codec.index 1, TxResult.ok p2),
                   (Tx.write [ctrl2Codec.index,
                     ctrl2Codec.encode (Ctrl2.bootOn (ctrl2Codec.decode (byte0 p2)))],
                     TxResult.ok q2)]) ++
                  [(Tx.writeRead ctrl1Codec.index 1, TxResult.ok p1),
                   (Tx.write [ctrl1Codec.index,
                     ctrl1Codec.encode
                       ((fun r0 =>
                         { r0 with
                           power_active := true
                           output_data_rate := OutputDataRate.Hz1
                           block_data_update := BlockDataUpdate.MsbLsbReading })
                         (ctrl1Codec.decode (byte0 p1)))],
                     TxResult.ok q1)]) ++
                  [(Tx.writeRead ctrl3Codec.index 1, TxResult.ok p3),
                   (Tx.write [ctrl3Codec.index,
                     ctrl3Codec.encode (Ctrl3.enable (ctrl3Codec.decode (byte0 p3)) true)],
                     TxResult.ok q3)]⟩ with
            | none =>
              simp only [hdr] at h
              exact absurd h (by simp)
            | some dp =>
              obtain ⟨dres, sD⟩ := dp
              have hext := drainLoop_extends bus fuel _ _ _ hdr
              simp only [hdr] at h
              cases dres with
              | error derr =>
                simp only [Option.some.injEq, Prod.mk.injEq] at h
                obtain ⟨h1, h2⟩ := h
                subst h2
                obtain ⟨t, hteq⟩ := hext
                constructor
                · rw [hteq]
                  simp
                · intro e he
                  rw [← h1] at he
                  obtain ⟨e4, he4, hlast⟩ := drainLoop_err bus fuel _ _ _ hdr
                  rw [he4] at he
                  simp only [Except.error.injEq, Hts221Error.I2c.injEq] at he
                  rw [← he]
                  exact hlast
              | ok u =>
                cases hc : bus sD.k (Tx.writeRead CALIB 16) with
                | err ec =>
                  simp only [Calibration.readOp,
                    readVal_err Calibration.parse bus sD CALIB 16 ec hc] at h
                  simp only [Option.some.injEq, Prod.mk.injEq] at h
                  obtain ⟨h1, h2⟩ := h
                  subst h2
                  obtain ⟨t, hteq⟩ := hext
                  constructor
                  · simp only [BusState.trace]
                    rw [hteq]
                    simp
                  · intro e he
                    rw [← h1] at he
                    simp only [Except.error.injEq, Hts221Error.I2c.injEq] at he
                    subst he
                    simp
                | ok bc =>
                  simp only [Calibration.readOp,
                    readVal_ok Calibration.parse bus sD CALIB 16 bc hc] at h
                  simp only [Option.some.injEq, Prod.mk.injEq] at h
                  obtain ⟨h1, h2⟩ := h
                  subst h2
                  obtain ⟨t, hteq⟩ := hext
                  constructor
                  · simp only [BusState.trace]
                    rw [hteq]
                    simp
                  · intro e he
                    rw [← h1] at he
                    exact absurd he (by simp)
    · rw [if_pos hid] at h
      simp only [Option.some.injEq, Prod.mk.injEq] at h
      obtain ⟨h1, h2⟩ := h
      subst h2
      refine ⟨by simp, ?_⟩
      intro e he
      rw [← h1] at he
      exact absurd he (by simp)

theorem initialize_error_cal (bus : Bus E) (cal : Option Calibration) (fuel : Nat)
    (err2 : Hts221Error E) (cal2 : Option Calibration) (s' : BusState E)
    (h : Hts221.initialize bus cal fuel = some (Except.error err2, cal2, s')) :
    cal2 = cal := by
  unfold Hts221.initialize at h
  cases hi : Hts221.initSteps bus fuel with
  | none =>
    simp only [hi] at h
    exact absurd h (by simp)
  | some p =>
    obtain ⟨res, s0⟩ := p
    simp only [hi] at h
    cases res with
    | error e0 =>
      simp only [Option.some.injEq, Prod.mk.injEq] at h
      exact h.2.1.symm
    | ok c =>
      simp at h

theorem initialize_err_last (bus : Bus E) (cal : Option Calibration) (fuel : Nat)
    (e : E) (cal2 : Option Calibration) (s' : BusState E)
    (h : Hts221.initialize bus cal fuel =
      some (Except.error (Hts221Error.I2c e), cal2, s')) :
    (s'.trace.getLast?).map Prod.snd = some (TxResult.err e) := by
  unfold Hts221.initialize at h
  cases hi : Hts221.initSteps bus fuel with
  | none =>
    simp only [hi] at h
    exact absurd h (by simp)
  | some p =>
    obtain ⟨res, s0⟩ := p
    simp only [hi] at h
    cases res with
    | error e0 =>
      simp only [Option.some.injEq, Prod.mk.injEq] at h
      obtain ⟨h1, _, h2⟩ := h
      subst h2
      simp only [Except.error.injEq] at h1
      exact (initSteps_run bus fuel _ _ hi).2 e (by rw [h1])
    | ok c =>
      simp at h

theorem initialize_head (bus : Bus E) (cal : Option Calibration) (fuel : Nat)
    (res : Except (Hts221Error E) Unit) (cal2 : Option Calibration) (s' : BusState E)
    (h : Hts221.initialize bus cal fuel = some (res, cal2, s')) :
    s'.trace.head? =
      some (Tx.writeRead WHO_AM_I 1, bus 0 (Tx.writeRead WHO_AM_I 1)) := by
  unfold Hts221.initialize at h
  cases hi : Hts221.initSteps bus fuel with
  | none =>
    simp only [hi] at h
    exact absurd h (by simp)
  | some p =>
    obtain ⟨res0, s0⟩ := p
    simp only [hi] at h
    cases res0 with
    | error e0 =>
      simp only [Option.some.injEq, Prod.mk.injEq] at h
      obtain ⟨_, _, h2⟩ := h
      subst h2
      exact (initSteps_run bus fuel _ _ hi).1
    | ok c =>
      simp only [Option.some.injEq, Prod.mk.injEq] at h
      obtain ⟨_, _, h2⟩ := h
      subst h2
      exact (initSteps_run bus fuel _ _ hi).1

theorem read_cal_unchanged (bus : Bus E) (c : Calibration) :
    (Hts221.read bus (some c)).2.1 = some c := by
  cases hT : bus 0 (Tx.writeRead T_OUT 2) with
  | err e => simp [Hts221.read, Tout.readOp, readVal, runTx, hT]
  | ok bs =>
    cases hH : bus 1 (Tx.writeRead H_OUT 2) with
    | err e =>
      simp [Hts221.read, Tout.readOp, Hout.readOp, readVal, runTx, hT, hH]
    | ok bs2 =>
      simp [Hts221.read, Tout.readOp, Hout.readOp, readVal, runTx, hT, hH]

theorem read_err_last (bus : Bus E) (cal : Option Calibration) (e : E)
    (cal2 : Option Calibration) (s' : BusState E)
    (h : Hts221.read bus cal = (Except.error (Hts221Error.I2c e), cal2, s')) :
    (s'.trace.getLast?).map Prod.snd = some (TxResult.err e) := by
  cases cal with
  | none =>
    simp only [Hts221.read] at h
    simp at h
  | some c =>
    cases hT : bus 0 (Tx.writeRead T_OUT 2) with
    | err e0 =>
      simp only [Hts221.read, Tout.readOp, readVal, runTx, hT] at h
      simp only [Prod.mk.injEq, Except.error.injEq, Hts221Error.I2c.injEq] at h
      obtain ⟨h1, _, h2⟩ := h
      subst h1
      rw [← h2]
      simp
    | ok bs =>
      cases hH : bus 1 (Tx.writeRead H_OUT 2) with
      | err e0 =>
        simp only [Hts221.read, Tout.readOp, Hout.readOp, readVal, runTx, hT] at h
        simp only [List.nil_append, Nat.zero_add, hH] at h
        simp only [Prod.mk.injEq, Except.error.injEq, Hts221Error.I2c.injEq] at h
        obtain ⟨h1, _, h2⟩ := h
        subst h1
        rw [← h2]
        simp
      | ok bs2 =>
        simp only [Hts221.read, Tout.readOp, Hout.readOp, readVal, runTx, hT] at h
        simp only [List.nil_append, Nat.zero_add, hH] at h
        simp at h

theorem initSteps_drainStub (N : Nat) (t : List (Tx × TxResult Unit))
    (heq : Hts221.drainLoop (drainStub N) (N + 1) ⟨7, preDrainTrace⟩ =
      some (Except.ok (), ⟨7 + 3 * N + 1, preDrainTrace ++ t⟩)) :
    Hts221.initSteps (drainStub N) (N + 1) =
      some (Except.ok zeroCal,
        ⟨7 + 3 * N + 2, (preDrainTrace ++ t) ++
          [(Tx.writeRead CALIB 16, TxResult.ok (List.replicate 16 0))]⟩) := by
  have hResp0 : drainStub N 0 (Tx.writeRead WHO_AM_I 1) = TxResult.ok [ADDR] := by
    simp [drainStub]
  have hb2 : Ctrl2.encode (Ctrl2.bootOn (Ctrl2.decode (byte0 [0]))) = 128 := by decide
  have hb1 : Ctrl1.encode
      { power_active := true
        output_data_rate := OutputDataRate.Hz1
        block_data_update := BlockDataUpdate.MsbLsbReading } = 148 := by decide
  have hb3 : Ctrl3.encode (Ctrl3.enable (Ctrl3.decode (byte0 [0])) true) = 4 := by decide
  have hm2 : regModify ctrl2Codec (drainStub N) ⟨1, (preDrainTrace.take 1 : List (Tx × TxResult Unit))⟩ Ctrl2.bootOn =
      (Except.ok (), ⟨3, preDrainTrace.take 3⟩) := by
    have hr : drainStub N 1 (Tx.writeRead CTRL_REG2 1) = TxResult.ok [0] := by
      simp [drainStub, CTRL_REG2, STATUS, WHO_AM_I]
    have hw : drainStub N 2 (Tx.write [CTRL_REG2, 128]) = TxResult.ok [] := by
      simp [drainStub]
    simp [regModify, regRead, regWrite, readVal, runTx, ctrl2Codec, hr, hb2, hw,
      preDrainTrace]
  have hm1 : regModify ctrl1Codec (drainStub N) ⟨3, (preDrainTrace.take 3 : List (Tx × TxResult Unit))⟩
      (fun r0 =>
        { r0 with
          power_active := true
          output_data_rate := OutputDataRate.Hz1
          block_data_update := BlockDataUpdate.MsbLsbReading }) =
      (Except.ok (), ⟨5, preDrainTrace.take 5⟩) := by
    have hr : drainStub N 3 (Tx.writeRead CTRL_REG1 1) = TxResult.ok [0] := by
      simp [drainStub, CTRL_REG1, STATUS, WHO_AM_I]
    have hw : drainStub N 4 (Tx.write [CTRL_REG1, 148]) = TxResult.ok [] := by
      simp [drainStub]
    simp [regModify, regRead, regWrite, readVal, runTx, ctrl1Codec, hr, hb1, hw,
      preDrainTrace]
  have hm3 : regModify ctrl3Codec (drainStub N) ⟨5, (preDrainTrace.take 5 : List (Tx × TxResult Unit))⟩
      (fun r0 => Ctrl3.enable r0 true) =
      (Except.ok (), ⟨7, preDrainTrace⟩) := by
    have hr : drainStub N 5 (Tx.writeRead CTRL_REG3 1) = TxResult.ok [0] := by
      simp [drainStub, CTRL_REG3, STATUS, WHO_AM_I]
    have hw : drainStub N 6 (Tx.write [CTRL_REG3, 4]) = TxResult.ok [] := by
      simp [drainStub]
    simp [regModify, regRead, regWrite, readVal, runTx, ctrl3Codec, hr, hb3, hw,
      preDrainTrace]
  have hc : drainStub N (7 + 3 * N + 1) (Tx.writeRead CALIB 16) =
      TxResult.ok (List.replicate 16 0) := by
    simp [drainStub, CALIB, STATUS, WHO_AM_I]
  simp only [Hts221.initSteps, WhoAmI.readOp, readVal, runTx, hResp0]
  rw [if_neg (by decide : ¬(byte0 [ADDR] ≠ ADDR))]
  rw [show ([(Tx.writeRead WHO_AM_I 1, TxResult.ok [ADDR])] :
      List (Tx × TxResult Unit)) = preDrainTrace.take 1 by simp [preDrainTrace]]
  simp only [Nat.zero_add, List.nil_append]
  simp only [hm2]
  simp only [hm1]
  simp only [hm3]
  simp only [heq]
  simp only [Calibration.readOp, readVal, runTx, hc]
  simp [zeroCal]

/-- C1: during `initialize` the identity register is read and compared against
the fixed expected constant before anything else: the first bus transaction of
every run that returns is the identity read (so it strictly precedes any
control-register write), and on mismatch the run returns `InvalidSensor` with
the identity read as its only transaction — in particular no control-register
write is issued on the bus. -/
theorem hts221_identity_check_first :
    (∀ (E : Type) (bus : Bus E) (cal : Option Calibration) (fuel : Nat)
      (res : Except (Hts221Error E) Unit) (cal2 : Option Calibration) (s' : BusState E),
      Hts221.initialize bus cal fuel = some (res, cal2, s') →
      s'.trace.head? =
        some (Tx.writeRead WHO_AM_I 1, bus 0 (Tx.writeRead WHO_AM_I 1))) ∧
    (∀ (E : Type) (bus : Bus E) (cal : Option Calibration) (fuel : Nat) (bs : List Byte),
      bus 0 (Tx.writeRead WHO_AM_I 1) = TxResult.ok bs →
      byte0 bs ≠ ADDR →
      Hts221.initialize bus cal fuel =
        some (Except.error Hts221Error.InvalidSensor, cal,
          ⟨1, [(Tx.writeRead WHO_AM_I 1, TxResult.ok bs)]⟩)) := by
  constructor
  · intro E bus cal fuel res cal2 s' h
    exact initialize_head bus cal fuel res cal2 s' h
  · intro E bus cal fuel bs hw hne
    unfold Hts221.initialize Hts221.initSteps
    simp only [WhoAmI.readOp, readVal, runTx, hw]
    rw [if_pos hne]
    simp

/-- Witness for C1: a stub whose identity register answers 0 makes
`initialize` fail with `InvalidSensor` after the single identity read. -/
theorem hts221_identity_check_first_witness :
    Hts221.initialize badBus (none : Option Calibration) 1 =
      some (Except.error Hts221Error.InvalidSensor, none,
        ⟨1, [(Tx.writeRead WHO_AM_I 1, TxResult.ok [0])]⟩) :=
  hts221_identity_check_first.2 Unit badBus none 1 [0] rfl (by decide)

set_option maxRecDepth 8192 in
/-- C2 counterexample: a transport whose first drain-loop status read fails
with error 7 while every other transaction succeeds.  `initialize` completes
with `Ok` even though a transport error occurred during a register operation:
the drain-loop status read's error is swallowed by the `if let Ok` in the
source, contradicting the claim that every transport error is propagated to
the caller. -/
theorem hts221_error_swallowed_counterexample :
    Hts221.initialize cexBus (none : Option Calibration) 3 =
      some (Except.ok (), some zeroCal, cexFinal) ∧
    (Tx.writeRead STATUS 1, TxResult.err 7) ∈ cexFinal.trace := by
  constructor
  · rfl
  · decide

/-- C2 (amended): every transport error that `initialize` or `read` returns is
propagated immediately and unmodified as the `I2c` variant — the error
returned is exactly the one of the run's final bus transaction — except that a
transport error of the status-register read inside the drain loop is not
propagated: it is discarded and the loop proceeds directly to the two drain
reads. -/
theorem hts221_error_propagation_amended :
    (∀ (E : Type) (bus : Bus E) (cal : Option Calibration) (fuel : Nat) (e : E)
      (cal2 : Option Calibration) (s' : BusState E),
      Hts221.initialize bus cal fuel =
        some (Except.error (Hts221Error.I2c e), cal2, s') →
      (s'.trace.getLast?).map Prod.snd = some (TxResult.err e)) ∧
    (∀ (E : Type) (bus : Bus E) (cal : Option Calibration) (e : E)
      (cal2 : Option Calibration) (s' : BusState E),
      Hts221.read bus cal = (Except.error (Hts221Error.I2c e), cal2, s') →
      (s'.trace.getLast?).map Prod.snd = some (TxResult.err e)) ∧
    (∀ (E : Type) (bus : Bus E) (s : BusState E) (fuel : Nat) (e : E)
      (r : Except (Hts221Error E) Unit) (s' : BusState E),
      bus s.k (Tx.writeRead STATUS 1) = TxResult.err e →
      Hts221.drainLoop bus (fuel + 1) s = some (r, s') →
      ∃ t, s'.trace = s.trace ++
        (Tx.writeRead STATUS 1, TxResult.err e) ::
        (Tx.writeRead H_OUT 2, bus (s.k + 1) (Tx.writeRead H_OUT 2)) :: t) :=
  ⟨fun _ bus cal fuel e cal2 s' h => initialize_err_last bus cal fuel e cal2 s' h,
   fun _ bus cal e cal2 s' h => read_err_last bus cal e cal2 s' h,
   fun _ bus s fuel e r s' hs h => drainLoop_status_err bus s fuel e hs r s' h⟩

/-- Witness for the amended C2: a stub failing every transaction with error 5
makes `initialize` return `I2c 5`, and the failed identity read is the final
transaction of the trace. -/
theorem hts221_error_propagation_witness :
    (((⟨1, [(Tx.writeRead WHO_AM_I 1, TxResult.err 5)]⟩ :
        BusState Nat)).trace.getLast?).map Prod.snd = some (TxResult.err 5) :=
  hts221_error_propagation_amended.1 Nat errBus none 1 5 none
    ⟨1, [(Tx.writeRead WHO_AM_I 1, TxResult.err 5)]⟩ rfl

/-- C3: against the draining stub that reports samples available for exactly
`N` status reads, `initialize` succeeds, its trace is the seven fixed
configuration transactions, a drain segment containing exactly `N` humidity
reads and exactly `N` temperature reads (and none occur elsewhere), and the
final calibration-block read. -/
theorem hts221_drain_exact_pairs :
    ∀ N : Nat, ∃ t : List (Tx × TxResult Unit),
      Hts221.initialize (drainStub N) none (N + 1) =
        some (Except.ok (), some zeroCal,
          ⟨7 + 3 * N + 2, (preDrainTrace ++ t) ++
            [(Tx.writeRead CALIB 16, TxResult.ok (List.replicate 16 0))]⟩) ∧
      countTx (Tx.writeRead H_OUT 2) t = N ∧
      countTx (Tx.writeRead T_OUT 2) t = N ∧
      countTx (Tx.writeRead H_OUT 2) preDrainTrace = 0 ∧
      countTx (Tx.writeRead T_OUT 2) preDrainTrace = 0 ∧
      t.length = 3 * N + 1 := by
  intro N
  obtain ⟨t, heq, hH, hT, hlen⟩ :=
    drainStub_loop N N ⟨7, preDrainTrace⟩ (Nat.le_refl N) (by simp)
  have hsteps := initSteps_drainStub N t heq
  refine ⟨t, ?_, hH, hT, by decide, by decide, hlen⟩
  unfold Hts221.initialize
  simp only [hsteps]

/-- C4: a failing run of `initialize` — transport error at any step or
identity mismatch — leaves the session's stored calibration exactly as it was,
so the session remains re-initializable (in particular it stays `none` if
never initialized). -/
theorem hts221_initialize_atomic :
    ∀ (E : Type) (bus : Bus E) (cal : Option Calibration) (fuel : Nat)
      (err2 : Hts221Error E) (cal2 : Option Calibration) (s' : BusState E),
      Hts221.initialize bus cal fuel = some (Except.error err2, cal2, s') →
      cal2 = cal :=
  fun _ bus cal fuel err2 cal2 s' h =>
    initialize_error_cal bus cal fuel err2 cal2 s' h

/-- Witness for C4: the all-failing stub makes `initialize` fail and the
stored calibration stays `none`. -/
theorem hts221_initialize_atomic_witness : (none : Option Calibration) = none :=
  hts221_initialize_atomic Nat errBus none 1 (Hts221Error.I2c 5) none
    ⟨1, [(Tx.writeRead WHO_AM_I 1, TxResult.err 5)]⟩ rfl

/-- C5: with no stored calibration, `read` fails with `NotCalibrated`, leaves
the calibration `none`, and performs zero bus transactions (empty trace). -/
theorem hts221_read_uncalibrated :
    ∀ (E : Type) (bus : Bus E),
      Hts221.read bus none =
        (Except.error Hts221Error.NotCalibrated, none, ⟨0, []⟩) :=
  fun _ _ => rfl

set_option maxRecDepth 8192 in
/-- C6: the control-register-2 codec round-trips — decoding an encoded value
is the identity, encoding a decoded byte is the identity on every byte whose
reserved bits (all but bit 7, bit 1 and bit 0) are zero, and the encoder
always leaves the reserved bit positions zero. -/
theorem ctrl2_codec_roundtrip :
    (∀ v : Ctrl2, Ctrl2.decode (Ctrl2.encode v) = v) ∧
    (∀ b : Fin 256, Nat.land b.val ctrl2ReservedMask = 0 →
      Ctrl2.encode (Ctrl2.decode b.val) = b.val) ∧
    (∀ v : Ctrl2, Nat.land (Ctrl2.encode v) ctrl2ReservedMask = 0) := by
  refine ⟨?_, by decide, ?_⟩
  · intro v
    obtain ⟨a, b, c⟩ := v
    cases a <;> cases b <;> cases c <;> decide
  · intro v
    obtain ⟨a, b, c⟩ := v
    cases a <;> cases b <;> cases c <;> decide

/-- Witness for C6: the reserved-bit-zero byte `0x83` survives a
decode-encode round trip. -/
theorem ctrl2_codec_roundtrip_witness : Ctrl2.encode (Ctrl2.decode 131) = 131 :=
  ctrl2_codec_roundtrip.2.1 ⟨131, by decide⟩ (by decide)

/-- C7: once set, the stored calibration never changes — `read` returns the
stored calibration unchanged in every outcome, and a failing `initialize`
leaves an already-set calibration exactly as it was. -/
theorem hts221_calibration_immutable :
    (∀ (E : Type) (bus : Bus E) (c : Calibration),
      (Hts221.read bus (some c)).2.1 = some c) ∧
    (∀ (E : Type) (bus : Bus E) (c : Calibration) (fuel : Nat)
      (err2 : Hts221Error E) (cal2 : Option Calibration) (s' : BusState E),
      Hts221.initialize bus (some c) fuel = some (Except.error err2, cal2, s') →
      cal2 = some c) :=
  ⟨fun _ bus c => read_cal_unchanged bus c,
   fun _ bus c fuel err2 cal2 s' h =>
     initialize_error_cal bus (some c) fuel err2 cal2 s' h⟩

/-- Witness for C7: a failing `initialize` against the all-failing stub leaves
an already-stored calibration in place. -/
theorem hts221_calibration_immutable_witness :
    (some zeroCal : Option Calibration) = some zeroCal :=
  hts221_calibration_immutable.2 Nat errBus zeroCal 1 (Hts221Error.I2c 5)
    (some zeroCal) ⟨1, [(Tx.writeRead WHO_AM_I 1, TxResult.err 5)]⟩ rfl

/-- C8: converting a Celsius-tagged temperature to Fahrenheit computes
`value * 9 / 5 + 32` on the raw value; in particular 0 °C maps to 32 °F and
100 °C maps to 212 °F.  At the two claimed inputs every `f32` operation is
exact, so the rational model coincides with the machine arithmetic. -/
theorem temperature_into_fahrenheit_spec :
    (Temperature.ofFloat 0).into_fahrenheit.raw_value = 32 ∧
    (Temperature.ofFloat 100).into_fahrenheit.raw_value = 212 ∧
    ∀ c : ℚ, (Temperature.ofFloat c).into_fahrenheit.raw_value = c * 9 / 5 + 32 := by
  refine ⟨?_, ?_, fun c => rfl⟩
  · norm_num [Temperature.ofFloat, Temperature.into_fahrenheit, Temperature.raw_value]
  · norm_num [Temperature.ofFloat, Temperature.into_fahrenheit, Temperature.raw_value]

/-- C9 (code behaviour at the failing input): with calibration pairs whose
raw-code x-coordinates are equal, `calibrated_temperature` and
`calibrated_humidity` silently produce the non-finite value (modelled `none`)
that the `f32` division by zero yields — no error kind exists for this in
`Hts221Error` — and `read` returns it wrapped in `Ok` rather than an error. -/
theorem degenerate_calibration_nonfinite :
    degCal.calibrated_temperature 100 = none ∧
    degCal.calibrated_humidity 100 = none ∧
    Hts221.read badBus (some degCal) =
      (Except.ok { temperature := none, relative_humidity := none },
        some degCal,
        ⟨2, [(Tx.writeRead T_OUT 2, TxResult.ok [0]),
             (Tx.writeRead H_OUT 2, TxResult.ok [0])]⟩) :=
  ⟨rfl, rfl, rfl⟩

set_option maxRecDepth 8192 in
/-- C10: `Ctrl2::modify` writes back exactly the re-encoding of the mutated
decoding of the byte it read — one read then one write of
`encode (f (decode b))` — and therefore the boot step of `initialize`
preserves the heater bit (bit 1) and the one-shot bit (bit 0) of every
starting byte and leaves the reserved bits zero. -/
theorem ctrl2_modify_frame :
    (∀ (E : Type) (bus : Bus E) (s : BusState E) (f : Ctrl2 → Ctrl2) (bs : List Byte),
      bus s.k (Tx.writeRead CTRL_REG2 1) = TxResult.ok bs →
      (regModify ctrl2Codec bus s f).2.trace = s.trace ++
        [(Tx.writeRead CTRL_REG2 1, TxResult.ok bs),
         (Tx.write [CTRL_REG2, Ctrl2.modifyByte f (byte0 bs)],
           bus (s.k + 1) (Tx.write [CTRL_REG2, Ctrl2.modifyByte f (byte0 bs)]))]) ∧
    (∀ b : Fin 256,
      Nat.land (Ctrl2.modifyByte Ctrl2.bootOn b.val) 2 = Nat.land b.val 2 ∧
      Nat.land (Ctrl2.modifyByte Ctrl2.bootOn b.val) 1 = Nat.land b.val 1 ∧
      Nat.land (Ctrl2.modifyByte Ctrl2.bootOn b.val) ctrl2ReservedMask = 0) := by
  constructor
  · intro E bus s f bs hb
    cases hw : bus (s.k + 1) (Tx.write [CTRL_REG2, Ctrl2.modifyByte f (byte0 bs)]) with
    | ok q =>
      simp only [Ctrl2.modifyByte] at hw
      simp [regModify, regRead, regWrite, readVal, runTx, ctrl2Codec,
        Ctrl2.modifyByte, hb, hw]
    | err e =>
      simp only [Ctrl2.modifyByte] at hw
      simp [regModify, regRead, regWrite, readVal, runTx, ctrl2Codec,
        Ctrl2.modifyByte, hb, hw]
  · decide

/-- Witness for C10: against the all-zero stub, `Ctrl2::modify` with the boot
mutation performs exactly the read and the computed write-back. -/
theorem ctrl2_modify_frame_witness :
    (regModify ctrl2Codec badBus ⟨0, []⟩ Ctrl2.bootOn).2.trace = [] ++
      [(Tx.writeRead CTRL_REG2 1, TxResult.ok [0]),
       (Tx.write [CTRL_REG2, Ctrl2.modifyByte Ctrl2.bootOn (byte0 [0])],
         badBus (0 + 1) (Tx.write [CTRL_REG2, Ctrl2.modifyByte Ctrl2.bootOn (byte0 [0])]))] :=
  ctrl2_modify_frame.1 Unit badBus ⟨0, []⟩ Ctrl2.bootOn [0] rfl
